import Mathlib

/-!
Verification of the JSON API sensor (`src/sensor.py`).

The development shallowly embeds the decision logic of the sensor:

* the JSON data model that `response.json()` / `json.loads` produce,
* the three textually duplicated normalization branches of `async_update`
  (template branch, render-fallback branch, no-template branch),
* the header construction of `JsonApiSensor.__init__` (including the
  mutation of the copied header dict, modelled with an explicit store),
* the poll-cycle state transition of `async_update`, with the fetch result
  and the template-render outcome supplied as explicit inputs and the log
  channel made explicit.
-/

namespace JsonApi

/-- JSON values as produced by Python's `json` module.  Numbers are modelled
as integers (the claims under verification do not depend on float printing).
Objects are association lists of string keys, as Python dicts preserve
insertion order; parsed dicts have pairwise distinct keys, and `List.lookup`
(first match) agrees with dict lookup on such lists. -/
inductive Json where
  | null
  | bool (b : Bool)
  | num (n : Int)
  | str (s : String)
  | arr (items : List Json)
  | obj (entries : List (String × Json))

/-- The attribute mapping the sensor exposes (`self._attributes`): a
string-keyed, order-preserving dict of JSON-compatible values. -/
abbrev Attrs := List (String × Json)

/-- Python `str()` as it is applied on the scalar fall-through branch of
`async_update` (`self._state = str(data)`).  In the source that line is only
reachable for non-list, non-dict values, because the `isinstance` tests
handle lists and dicts first; the container cases below are therefore
unreachable at every call site of this function and are mapped to `""`. -/
def pyStr : Json → String
  | .null => "None"
  | .bool true => "True"
  | .bool false => "False"
  | .num n => toString n
  | .str s => s
  | .arr _ => ""
  | .obj _ => ""

/-- Embeds the Python test `isinstance(v, list)`. -/
def Json.isArr : Json → Bool
  | .arr _ => true
  | _ => false

/-- Embeds the Python test `isinstance(v, dict)`. -/
def Json.isObj : Json → Bool
  | .obj _ => true
  | _ => false

/-- Whether a JSON value is a scalar or null (the shapes the spec's data
model allows for the primary value). -/
def Json.isScalarOrNull : Json → Bool
  | .null => true
  | .bool _ => true
  | .num _ => true
  | .str _ => true
  | .arr _ => false
  | .obj _ => false

/-- Lines 123–136 of `async_update`: the normalization applied to
`processed_data`, the successfully rendered and re-parsed template output.
Returns the pair (`self._state`, `self._attributes`) that the branch
assigns. -/
def normalizeTemplate (processed_data : Json) : Json × Attrs :=
  match processed_data with
  | .arr items => (Json.num (Int.ofNat items.length), [("items", Json.arr items)])
  | .obj d =>
    let primary :=
      match d.lookup "count" with
      | some v => v
      | none =>
        match d.lookup "total" with
        | some v => v
        | none => Json.str "OK"
    (primary, d)
  | scalar => (Json.str (pyStr scalar), [("raw", scalar)])

/-- Lines 140–153 of `async_update`: the fallback normalization applied to
the original unrendered `data` after the template raised during evaluation
or re-parse. -/
def normalizeFallback (data : Json) : Json × Attrs :=
  match data with
  | .arr items => (Json.num (Int.ofNat items.length), [("items", Json.arr items)])
  | .obj d =>
    let primary :=
      match d.lookup "count" with
      | some v => v
      | none =>
        match d.lookup "total" with
        | some v => v
        | none => Json.str "OK"
    (primary, d)
  | scalar => (Json.str (pyStr scalar), [("raw", scalar)])

/-- Lines 156–169 of `async_update`: the default normalization applied to
`data` when no `attributes_template` is configured. -/
def normalizeDefault (data : Json) : Json × Attrs :=
  match data with
  | .arr items => (Json.num (Int.ofNat items.length), [("items", Json.arr items)])
  | .obj d =>
    let primary :=
      match d.lookup "count" with
      | some v => v
      | none =>
        match d.lookup "total" with
        | some v => v
        | none => Json.str "OK"
    (primary, d)
  | scalar => (Json.str (pyStr scalar), [("raw", scalar)])

/-- The single Normalizer of spec §4.3, written from the spec's words
(sequence: length and `{"items": A}`; mapping: `count` before `total`
before `"OK"`, attributes the object itself; otherwise the scalar's string
representation and `{"raw": s}`).  Used as the common target for the
refinement claim that the three call sites are extensionally identical. -/
def normalize_spec (value : Json) : Json × Attrs :=
  if value.isArr then
    match value with
    | .arr items => (Json.num (Int.ofNat items.length), [("items", Json.arr items)])
    | _ => (Json.str "OK", [])
  else if value.isObj then
    match value with
    | .obj d =>
      ((match d.lookup "count" with
        | some v => v
        | none =>
          match d.lookup "total" with
          | some v => v
          | none => Json.str "OK"), d)
    | _ => (Json.str "OK", [])
  else
    (Json.str (pyStr value), [("raw", value)])

/-- HTTP header mappings: string-keyed, order-preserving dicts. -/
abbrev Headers := List (String × String)

/-- Python dict assignment `d[k] = v`: if the key is already present its
value is replaced in place (the key keeps its position), otherwise the new
binding is appended at the end. -/
def setKey (d : Headers) (k v : String) : Headers :=
  if (d.lookup k).isSome then
    d.map (fun p => if p.1 = k then (k, v) else p)
  else
    d ++ [(k, v)]

/-- Python truthiness of the optional `authorization` string as tested by
`if self._authorization:` — `None` and the empty string are falsy. -/
def pyTruthy : Option String → Bool
  | none => false
  | some s => !(s == "")

/-- The header mapping the sensor stores and sends (lines 61 and 70–72 of
`__init__`, used by the request at lines 98–101): a copy of the configured
headers, with `self._headers["Authorization"] = self._authorization`
performed when the authorization value is truthy. -/
def initHeaders (authorization : Option String) (headers : Headers) : Headers :=
  if pyTruthy authorization then
    setKey headers "Authorization" (match authorization with | some a => a | none => "")
  else
    headers

/-- A store of mutable header dicts; a Python dict reference is an index
into the store.  This makes the aliasing behavior of `headers.copy()`
explicit. -/
structure Store where
  cells : List Headers

/-- Dereference a dict. -/
def Store.read (σ : Store) (r : Nat) : Headers := σ.cells.getD r []

/-- Allocate a fresh dict holding `d`; returns the new store and the fresh
reference. -/
def Store.alloc (σ : Store) (d : Headers) : Store × Nat :=
  (⟨σ.cells ++ [d]⟩, σ.cells.length)

/-- Overwrite the dict at reference `r`. -/
def Store.write (σ : Store) (r : Nat) (d : Headers) : Store :=
  ⟨σ.cells.set r d⟩

/-- Lines 56–72 of `JsonApiSensor.__init__` as they act on header dicts:
`self._headers = headers.copy()` allocates a fresh dict with the caller's
contents, and the subsequent `self._headers["Authorization"] = ...` (guarded
by truthiness of the authorization value) mutates only that fresh dict.
Returns the store after construction and the reference the sensor keeps as
`self._headers`; `r` is the caller's dict. -/
def initSensorHeaders (authorization : Option String) (σ : Store) (r : Nat) :
    Store × Nat :=
  if pyTruthy authorization then
    ((σ.alloc (σ.read r)).1.write (σ.alloc (σ.read r)).2
      (setKey ((σ.alloc (σ.read r)).1.read (σ.alloc (σ.read r)).2)
        "Authorization" (match authorization with | some a => a | none => "")),
     (σ.alloc (σ.read r)).2)
  else
    σ.alloc (σ.read r)

/-- The observable sensor state: `self._state`, `self._attributes`,
`self._available`.  `self._state` is dynamically typed in the source and is
modelled as a `Json` value (`None` initially, list lengths, dict values,
`"OK"`, or `str(...)` results). -/
structure SensorState where
  state : Json
  attributes : Attrs
  available : Bool

/-- The outcome of one fetch attempt, as `async_update` distinguishes them:
a 200 response with a parsed JSON body; a non-200 status (body not parsed);
an `aiohttp.ClientError`; expiry of the 10-second `async_timeout`; or any
other exception, such as a JSON parse failure of a 200 body (caught by the
generic `except Exception` handler). -/
inductive FetchResult where
  | success (data : Json)
  | httpError (status : Nat)
  | clientError (msg : String)
  | timeout
  | unexpectedError (msg : String)

/-- Whether the fetch produced a 200 response with parseable JSON. -/
def FetchResult.isSuccess : FetchResult → Bool
  | .success _ => true
  | _ => false

/-- Outcome of the template step (lines 108–119): either the rule was
evaluated and its textual output re-parsed into a JSON value, or some
exception was raised during evaluation or re-parse (caught at line 137). -/
inductive RenderOutcome where
  | rendered (processed_data : Json)
  | failed (err : String)

/-- Severity of a diagnostic log line. -/
inductive LogLevel where
  | debug
  | error

/-- One diagnostic log line emitted during a poll cycle. -/
structure LogLine where
  level : LogLevel
  msg : String

/-- Lines 94–182: one execution of `async_update`.  The fetch outcome and
(when a template is configured) the render outcome are explicit inputs,
since the HTTP client and the templating engine are external collaborators.
Returns the sensor state after the cycle together with the log lines
emitted; the function is total — no exception escapes to the caller. -/
def asyncUpdate (attributes_template : Option String) (render : RenderOutcome)
    (fetch : FetchResult) (s : SensorState) : SensorState × List LogLine :=
  match fetch with
  | .success data =>
    match attributes_template with
    | some _ =>
      match render with
      | .rendered processed_data =>
        let norm := normalizeTemplate processed_data
        (⟨norm.1, norm.2, true⟩,
         [⟨.debug, "Applying attributes_template to data"⟩,
          ⟨.debug, "Template rendered"⟩,
          ⟨.debug, "Template processing successful"⟩,
          ⟨.debug, "Successfully fetched data"⟩])
      | .failed err =>
        let norm := normalizeFallback data
        (⟨norm.1, norm.2, true⟩,
         [⟨.debug, "Applying attributes_template to data"⟩,
          ⟨.error, "Error processing attributes_template: " ++ err⟩,
          ⟨.debug, "Successfully fetched data"⟩])
    | none =>
      let norm := normalizeDefault data
      (⟨norm.1, norm.2, true⟩, [⟨.debug, "Successfully fetched data"⟩])
  | .httpError status =>
    ({ s with available := false },
     [⟨.error, "Error fetching data: HTTP " ++ toString status⟩])
  | .clientError err =>
    ({ s with available := false },
     [⟨.error, "Error fetching data: " ++ err⟩])
  | .timeout =>
    ({ s with available := false }, [⟨.error, "Unexpected error: timeout"⟩])
  | .unexpectedError err =>
    ({ s with available := false }, [⟨.error, "Unexpected error: " ++ err⟩])

/-! ## Theorems about normalization -/

/-- C1: for every JSON object input, the primary value follows the exact
precedence — a key literally named `count` wins (regardless of `total`),
else a key literally named `total`, else the literal string `"OK"` — and in
all three cases the attribute mapping is the object itself, unchanged. -/
theorem c1_object_precedence (d : List (String × Json)) :
    (∀ v, d.lookup "count" = some v → normalizeDefault (Json.obj d) = (v, d)) ∧
    (d.lookup "count" = none →
      ∀ v, d.lookup "total" = some v → normalizeDefault (Json.obj d) = (v, d)) ∧
    (d.lookup "count" = none → d.lookup "total" = none →
      normalizeDefault (Json.obj d) = (Json.str "OK", d)) := by
  refine ⟨?_, ?_, ?_⟩
  · intro v h
    simp [normalizeDefault, h]
  · intro hc v ht
    simp [normalizeDefault, hc, ht]
  · intro hc ht
    simp [normalizeDefault, hc, ht]

/-- Witness for C1: the three precedence cases evaluated at concrete
objects (`count` present alongside `total`; only `total`; neither). -/
theorem c1_object_precedence_witness :
    normalizeDefault (Json.obj [("count", Json.num 2), ("total", Json.num 9)])
        = (Json.num 2, [("count", Json.num 2), ("total", Json.num 9)]) ∧
    normalizeDefault (Json.obj [("total", Json.num 17), ("region", Json.str "eu")])
        = (Json.num 17, [("total", Json.num 17), ("region", Json.str "eu")]) ∧
    normalizeDefault (Json.obj [("region", Json.str "eu")])
        = (Json.str "OK", [("region", Json.str "eu")]) :=
  ⟨(c1_object_precedence [("count", Json.num 2), ("total", Json.num 9)]).1 _ rfl,
   (c1_object_precedence [("total", Json.num 17), ("region", Json.str "eu")]).2.1 rfl _ rfl,
   (c1_object_precedence [("region", Json.str "eu")]).2.2 rfl rfl⟩

/-- C2: for every JSON array input, the primary value is the array's length
(an integer) and the attributes are `{"items": A}` with the array
unchanged. -/
theorem c2_array_normalization (items : List Json) :
    normalizeDefault (Json.arr items)
      = (Json.num (Int.ofNat items.length), [("items", Json.arr items)]) := rfl

/-- C3: for every scalar JSON input (number, string, boolean, or null) the
primary value is the scalar coerced to its Python string representation and
the attributes are `{"raw": s}` with the original scalar unchanged. -/
theorem c3_scalar_normalization :
    (∀ n : Int, normalizeDefault (Json.num n)
        = (Json.str (toString n), [("raw", Json.num n)])) ∧
    (∀ s : String, normalizeDefault (Json.str s)
        = (Json.str s, [("raw", Json.str s)])) ∧
    normalizeDefault (Json.bool true)
        = (Json.str "True", [("raw", Json.bool true)]) ∧
    normalizeDefault (Json.bool false)
        = (Json.str "False", [("raw", Json.bool false)]) ∧
    normalizeDefault Json.null = (Json.str "None", [("raw", Json.null)]) :=
  ⟨fun _ => rfl, fun _ => rfl, rfl, rfl, rfl⟩

/-- C7: the three normalization call sites of `async_update` — template
branch, render-fallback branch, and no-template branch — are extensionally
identical: on every JSON value each produces the same pair as the single
Normalizer written from the spec. -/
theorem c7_call_sites_identical (v : Json) :
    normalizeTemplate v = normalize_spec v ∧
    normalizeFallback v = normalize_spec v ∧
    normalizeDefault v = normalize_spec v := by
  refine ⟨?_, ?_, ?_⟩ <;> cases v <;> rfl

/-- C8: normalization is a total deterministic function — every JSON value
yields a result (the embedding is a Lean function, so purity and
determinism are structural), and every shape that is neither a list nor a
dict falls through to the scalar default branch rather than raising. -/
theorem c8_total_with_fallthrough (v : Json) :
    (∃ p a, normalizeDefault v = (p, a)) ∧
    (v.isArr = false → v.isObj = false →
      normalizeDefault v = (Json.str (pyStr v), [("raw", v)])) := by
  refine ⟨⟨(normalizeDefault v).1, (normalizeDefault v).2, rfl⟩, ?_⟩
  intro ha ho
  cases v <;> simp_all [Json.isArr, Json.isObj, normalizeDefault]

/-- Witness for C8: the fall-through branch evaluated at `null`. -/
theorem c8_total_with_fallthrough_witness :
    (∃ p a, normalizeDefault Json.null = (p, a)) ∧
    normalizeDefault Json.null = (Json.str (pyStr Json.null), [("raw", Json.null)]) :=
  ⟨(c8_total_with_fallthrough Json.null).1,
   (c8_total_with_fallthrough Json.null).2 rfl rfl⟩

/-- C10: whatever value the `count` key (or, absent that, the `total` key)
maps to becomes the primary value verbatim, with no coercion or type check;
in particular a non-scalar such as an array becomes the primary value, so
the primary value is not guaranteed to be scalar-or-null. -/
theorem c10_primary_value_verbatim :
    (∀ (d : List (String × Json)) (w : Json), d.lookup "count" = some w →
        (normalizeDefault (Json.obj d)).1 = w) ∧
    (∀ (d : List (String × Json)) (w : Json), d.lookup "count" = none →
        d.lookup "total" = some w → (normalizeDefault (Json.obj d)).1 = w) ∧
    (normalizeDefault (Json.obj [("count", Json.arr [Json.num 1])])).1
        = Json.arr [Json.num 1] ∧
    Json.isScalarOrNull (Json.arr [Json.num 1]) = false := by
  refine ⟨?_, ?_, ?_, rfl⟩
  · intro d w h
    simp [normalizeDefault, h]
  · intro d w hc ht
    simp [normalizeDefault, hc, ht]
  · simp [normalizeDefault]

/-- Witness for C10: both lookup hypotheses discharged at concrete objects,
one of which maps `count` to an array. -/
theorem c10_primary_value_verbatim_witness :
    (normalizeDefault (Json.obj [("count", Json.arr [Json.num 1, Json.num 2])])).1
        = Json.arr [Json.num 1, Json.num 2] ∧
    (normalizeDefault (Json.obj [("total", Json.obj [("a", Json.null)])])).1
        = Json.obj [("a", Json.null)] :=
  ⟨c10_primary_value_verbatim.1 [("count", Json.arr [Json.num 1, Json.num 2])] _ rfl,
   c10_primary_value_verbatim.2.1 [("total", Json.obj [("a", Json.null)])] _ rfl rfl⟩

/-! ## Theorems about the poll cycle -/

/-- C4: when the fetch succeeds but the configured render rule fails during
evaluation or re-parse, the fallback normalization of the original
unrendered JSON value is committed, availability is set to true, and the
failure is surfaced only as one error log line among diagnostics — the
transition returns a state, never an error. -/
theorem c4_render_failure_recovers (rule err : String) (data : Json)
    (s : SensorState) :
    (asyncUpdate (some rule) (.failed err) (.success data) s).1
      = ⟨(normalizeFallback data).1, (normalizeFallback data).2, true⟩ ∧
    (asyncUpdate (some rule) (.failed err) (.success data) s).2
      = [⟨.debug, "Applying attributes_template to data"⟩,
         ⟨.error, "Error processing attributes_template: " ++ err⟩,
         ⟨.debug, "Successfully fetched data"⟩] :=
  ⟨rfl, rfl⟩

/-- C5: on any non-success fetch outcome, the only state change is that the
availability flag becomes false; the primary value and attributes are
retained from the last successful cycle, and the transition is total (no
exception escapes). -/
theorem c5_fetch_failure_only_flips_available (tpl : Option String)
    (render : RenderOutcome) (f : FetchResult) (s : SensorState)
    (h : f.isSuccess = false) :
    (asyncUpdate tpl render f s).1 = { s with available := false } := by
  cases f with
  | success data => simp [FetchResult.isSuccess] at h
  | httpError status => rfl
  | clientError msg => rfl
  | timeout => rfl
  | unexpectedError msg => rfl

/-- Witness for C5: an HTTP 500 leaves a previously committed state of
`17` with its attributes, only flipping availability. -/
theorem c5_fetch_failure_only_flips_available_witness :
    FetchResult.isSuccess (.httpError 500) = false ∧
    (asyncUpdate none (.failed "") (.httpError 500)
        ⟨Json.num 17, [("total", Json.num 17)], true⟩).1
      = ⟨Json.num 17, [("total", Json.num 17)], false⟩ :=
  ⟨rfl, c5_fetch_failure_only_flips_available none (.failed "") (.httpError 500)
    ⟨Json.num 17, [("total", Json.num 17)], true⟩ rfl⟩

/-! ## Theorems about header construction -/

/-- Looking up the assigned key after a dict assignment finds the new value
whenever the key was already present. -/
theorem lookup_map_replace (d : Headers) (k v : String) :
    (d.map (fun p => if p.1 = k then (k, v) else p)).lookup k
      = if (d.lookup k).isSome then some v else none := by
  induction d with
  | nil => simp
  | cons p t ih =>
    obtain ⟨pk, pv⟩ := p
    by_cases hp : pk = k
    · simp [List.lookup_cons, hp]
    · have hk : (k == pk) = false := beq_eq_false_iff_ne.mpr (Ne.symm hp)
      simp [List.lookup_cons, hp, hk, ih]
      rw [hk]

/-- A dict assignment to key `k` leaves lookups of every other key
unchanged (the in-place replacement branch). -/
theorem lookup_map_replace_ne (d : Headers) (k v k' : String) (h : k' ≠ k) :
    (d.map (fun p => if p.1 = k then (k, v) else p)).lookup k'
      = d.lookup k' := by
  induction d with
  | nil => simp
  | cons p t ih =>
    obtain ⟨pk, pv⟩ := p
    by_cases hp : pk = k
    · have hk1 : (k' == k) = false := beq_eq_false_iff_ne.mpr h
      have hk2 : (k' == pk) = false := by rw [hp]; exact hk1
      simp [List.lookup_cons, hp, hk1, hk2, ih]
    · cases hq : (k' == pk) with
      | true => simp [List.lookup_cons, hp, hq]
      | false => simp [List.lookup_cons, hp, hq, ih]

/-- Appending a fresh binding makes its key found whenever it was absent. -/
theorem lookup_append_single (d : Headers) (k v : String)
    (h : d.lookup k = none) : (d ++ [(k, v)]).lookup k = some v := by
  induction d with
  | nil => simp
  | cons p t ih =>
    obtain ⟨pk, pv⟩ := p
    rw [List.cons_append, List.lookup_cons]
    rw [List.lookup_cons] at h
    cases hkp : (k == pk) with
    | true => simp [hkp] at h
    | false =>
      simp only [hkp] at h ⊢
      exact ih h

/-- Appending a binding for key `k` leaves lookups of other keys
unchanged. -/
theorem lookup_append_single_ne (d : Headers) (k v k' : String)
    (h : k' ≠ k) : (d ++ [(k, v)]).lookup k' = d.lookup k' := by
  induction d with
  | nil =>
    have hk : (k' == k) = false := beq_eq_false_iff_ne.mpr h
    simp [List.lookup_cons, hk]
  | cons p t ih =>
    obtain ⟨pk, pv⟩ := p
    rw [List.cons_append, List.lookup_cons, List.lookup_cons]
    cases hkp : (k' == pk) with
    | true => simp [hkp]
    | false => simp [hkp, ih]

/-- C6 counterexample: the claim quantifies over every configuration with a
static authorization value set, but the guard `if self._authorization:`
uses Python truthiness, so a configured empty-string authorization is not
merged: with configured headers `{"X-Token": "t"}` and authorization `""`,
the request headers carry no `Authorization` entry at all, while the claim
requires `Authorization: ""`. -/
theorem c6_auth_merge_cex :
    (initHeaders (some "") [("X-Token", "t")]).lookup "Authorization" = none ∧
    ¬ ((initHeaders (some "") [("X-Token", "t")]).lookup "Authorization"
        = some "") := by
  refine ⟨rfl, ?_⟩
  intro h
  simp [initHeaders, pyTruthy, setKey, List.lookup] at h

/-- C6 (amended to non-empty authorization values): with a non-empty static
authorization value configured, the GET request's headers are the
configured mapping merged with `Authorization` bound to that value,
overriding any identically-named entry, and all other keys unchanged. -/
theorem c6_auth_header_merge (hdrs : Headers) (a : String) (h : a ≠ "") :
    (initHeaders (some a) hdrs).lookup "Authorization" = some a ∧
    (∀ k, k ≠ "Authorization" →
      (initHeaders (some a) hdrs).lookup k = hdrs.lookup k) := by
  have ht : pyTruthy (some a) = true := by simp [pyTruthy, h]
  unfold initHeaders
  rw [ht]
  simp only [if_true]
  unfold setKey
  by_cases hd : (hdrs.lookup "Authorization").isSome
  · rw [if_pos hd]
    refine ⟨?_, fun k hk => lookup_map_replace_ne hdrs "Authorization" a k hk⟩
    rw [lookup_map_replace, if_pos hd]
  · rw [if_neg hd]
    refine ⟨?_, fun k hk => lookup_append_single_ne hdrs "Authorization" a k hk⟩
    exact lookup_append_single hdrs "Authorization" a
      (Option.not_isSome_iff_eq_none.mp hd)

/-- Witness for C6 (amended): configured header `Authorization: foo` plus
static value `Bearer xyz` yields request header `Authorization: Bearer
xyz`, and an unrelated key is untouched. -/
theorem c6_auth_header_merge_witness :
    ("Bearer xyz" : String) ≠ "" ∧
    (initHeaders (some "Bearer xyz")
        [("Authorization", "foo"), ("X-Token", "t")]).lookup "Authorization"
      = some "Bearer xyz" ∧
    (initHeaders (some "Bearer xyz")
        [("Authorization", "foo"), ("X-Token", "t")]).lookup "X-Token"
      = [("Authorization", "foo"), ("X-Token", "t")].lookup "X-Token" :=
  ⟨by decide,
   (c6_auth_header_merge [("Authorization", "foo"), ("X-Token", "t")]
      "Bearer xyz" (by decide)).1,
   (c6_auth_header_merge [("Authorization", "foo"), ("X-Token", "t")]
      "Bearer xyz" (by decide)).2 "X-Token" (by decide)⟩

/-! ## Theorems about the constructor's treatment of the caller's dict -/

/-- Allocation preserves the contents of every existing reference. -/
theorem read_alloc_preserved (σ : Store) (d : Headers) (r : Nat)
    (h : r < σ.cells.length) : (σ.alloc d).1.read r = σ.read r := by
  simp [Store.alloc, Store.read, List.getElem?_append_left h]

/-- Reading the freshly allocated reference yields the allocated dict. -/
theorem read_alloc_new (σ : Store) (d : Headers) :
    (σ.alloc d).1.read (σ.alloc d).2 = d := by
  simp [Store.alloc, Store.read, List.getElem?_concat_length]

/-- Writing one reference leaves every other reference unchanged. -/
theorem read_write_other (σ : Store) (i r : Nat) (d : Headers) (h : i ≠ r) :
    (σ.write i d).read r = σ.read r := by
  simp [Store.write, Store.read, List.getElem?_set_ne h]

/-- Writing a valid reference updates its contents. -/
theorem read_write_self (σ : Store) (i : Nat) (d : Headers)
    (h : i < σ.cells.length) : (σ.write i d).read i = d := by
  simp [Store.write, Store.read, List.getElem?_set_self h]

/-- C9: the constructor never mutates the caller-supplied header dict — it
copies it, so adding the `Authorization` entry touches only the sensor's
own copy; the caller's dict reads back unchanged, while the sensor's stored
headers equal the merged mapping. -/
theorem c9_constructor_leaves_caller_dict (auth : Option String) (σ : Store)
    (r : Nat) (h : r < σ.cells.length) :
    (initSensorHeaders auth σ r).1.read r = σ.read r ∧
    (initSensorHeaders auth σ r).1.read (initSensorHeaders auth σ r).2
      = initHeaders auth (σ.read r) := by
  cases ht : pyTruthy auth with
  | false =>
    simp only [initSensorHeaders, initHeaders, ht, Bool.false_eq_true,
      if_false]
    exact ⟨read_alloc_preserved σ _ r h, read_alloc_new σ _⟩
  | true =>
    simp only [initSensorHeaders, initHeaders, ht, if_true]
    constructor
    · have hne : (σ.alloc (σ.read r)).2 ≠ r := by
        show σ.cells.length ≠ r
        omega
      rw [read_write_other _ _ _ _ hne]
      exact read_alloc_preserved σ _ r h
    · have hlt : (σ.alloc (σ.read r)).2 < (σ.alloc (σ.read r)).1.cells.length := by
        show σ.cells.length < (σ.cells ++ [σ.read r]).length
        simp
      rw [read_write_self _ _ _ hlt, read_alloc_new]

/-- Witness for C9: a store holding one caller dict, a truthy authorization
value; the caller's dict reads back unchanged after construction and the
sensor's copy carries the merge. -/
theorem c9_constructor_leaves_caller_dict_witness :
    0 < (Store.mk [[("X-Token", "t")]]).cells.length ∧
    ((initSensorHeaders (some "Bearer xyz") (Store.mk [[("X-Token", "t")]]) 0).1.read 0
        = (Store.mk [[("X-Token", "t")]]).read 0 ∧
     (initSensorHeaders (some "Bearer xyz") (Store.mk [[("X-Token", "t")]]) 0).1.read
        (initSensorHeaders (some "Bearer xyz") (Store.mk [[("X-Token", "t")]]) 0).2
        = initHeaders (some "Bearer xyz") ((Store.mk [[("X-Token", "t")]]).read 0)) :=
  ⟨by decide,
   c9_constructor_leaves_caller_dict (some "Bearer xyz")
     (Store.mk [[("X-Token", "t")]]) 0 (by decide)⟩

end JsonApi
